import Mathlib

/-!
Verification of the email-scheduler task-prioritization engine.

This file is a shallow embedding, in Lean 4, of the two modules of the
repository that the specified core properties concern:

* `src/prioritizer.py` — urgency keyword detection, explicit priority
  pattern matching, deadline parsing and proximity scoring, weighted score
  combination, tier classification, and the stable ranking sort;
* `src/json_generator.py` — record validation, deadline canonicalization to
  `YYYY-MM-DD`, and output-record construction.

Modelling conventions:
* Python floats are modelled as exact rationals (`ℚ`); every weight in the
  source is a short decimal literal, so the idealization is faithful up to
  floating-point rounding, which no claim depends on.
* The ambient clock `datetime.now()` is modelled as an explicit parameter
  `now`; a single evaluation instant is threaded through a call.
* Python `datetime` values are modelled by `PyDateTime` (calendar fields);
  `datetime.strptime` is modelled by an executable matcher over the exact
  directive sequences appearing in the source's format lists, following
  CPython's `_strptime` regexes (two-digit alternatives tried before
  one-digit ones, format whitespace matching a nonempty whitespace run,
  case-insensitive literals and month names, full-string match required,
  and constructor validation of the day against the month length).
* Dictionary values that can be `None`, a string, or a `datetime` are
  modelled by `Val`; key presence is modelled by `Option`.
* Functions that catch all exceptions and fall back (`parse_deadline_string`,
  `calculate_deadline_proximity_score`, `format_date_iso8601`) are total
  here, returning the fallback value on the same conditions.
-/

namespace EmailScheduler

/-! ## Characters and strings -/

/-- Python `\s` whitespace class (ASCII part, which is all the source feeds it). -/
def isPySpace (c : Char) : Bool :=
  c = ' ' || c = '\t' || c = '\n' || c = '\r' || c = '\x0b' || c = '\x0c'

/-- Python word character for `\b` boundaries: `[a-zA-Z0-9_]`. -/
def isWordChar (c : Char) : Bool :=
  ('a' ≤ c && c ≤ 'z') || ('A' ≤ c && c ≤ 'Z') || ('0' ≤ c && c ≤ '9') || c = '_'

/-- Python `str.lower()` on the ASCII range used by the source. -/
def strLower (s : String) : String :=
  String.mk (s.data.map Char.toLower)

/-- Drop leading Python whitespace. -/
def dropWs (cs : List Char) : List Char := cs.dropWhile (fun c => isPySpace c)

/-- Python `str.strip()`: remove leading and trailing whitespace. -/
def strStrip (s : String) : String :=
  String.mk ((dropWs (dropWs s.data).reverse).reverse)

/-- Does `pre` occur at the head of `cs` (exact character match)? -/
def listStartsWith : List Char → List Char → Bool
  | [], _ => true
  | _ :: _, [] => false
  | a :: as, b :: bs => a = b && listStartsWith as bs

/-- Does `pre` occur at the head of `cs`, comparing case-insensitively? -/
def listStartsWithCI : List Char → List Char → Bool
  | [], _ => true
  | _ :: _, [] => false
  | a :: as, b :: bs => a.toLower = b.toLower && listStartsWithCI as bs

/-- Python's substring operator `needle in hay`. -/
def isSubstring (needle : List Char) : List Char → Bool
  | [] => needle.isEmpty
  | c :: rest => listStartsWith needle (c :: rest) || isSubstring needle rest

/-! ## Calendar arithmetic (proleptic Gregorian, as Python's `datetime`) -/

def isLeapYear (y : ℕ) : Bool :=
  y % 4 = 0 && (y % 100 ≠ 0 || y % 400 = 0)

def daysInMonth (y m : ℕ) : ℕ :=
  if m = 2 then (if isLeapYear y then 29 else 28)
  else if m = 4 || m = 6 || m = 9 || m = 11 then 30
  else 31

/-- Python `datetime.datetime` (fields only; no tzinfo is used by the source). -/
structure PyDateTime where
  year : ℕ
  month : ℕ
  day : ℕ
  hour : ℕ
  minute : ℕ
  second : ℕ
deriving DecidableEq, Repr

/-- Days in all months of year `y` strictly before month `m`. -/
def daysBeforeMonth (y m : ℕ) : ℕ :=
  (List.range m).foldl (fun acc i => if 1 ≤ i then acc + daysInMonth y i else acc) 0

/-- Days in all years strictly before year `y` (`datetime.toordinal` support). -/
def daysBeforeYear (y : ℕ) : ℕ :=
  (y - 1) * 365 + (y - 1) / 4 - (y - 1) / 100 + (y - 1) / 400

/-- The `datetime.toordinal`-style day index of a `PyDateTime`. -/
def toOrdinal (d : PyDateTime) : ℕ :=
  daysBeforeYear d.year + daysBeforeMonth d.year d.month + d.day

/-- Absolute time in seconds, so that `(a - b).total_seconds()` is
`totalSeconds a - totalSeconds b` as an integer. -/
def totalSeconds (d : PyDateTime) : ℤ :=
  (toOrdinal d : ℤ) * 86400 + d.hour * 3600 + d.minute * 60 + d.second

/-- Advance a calendar date by one day with month/year rollover
(`timedelta(days=1)` addition on the date part). -/
def nextDay (d : PyDateTime) : PyDateTime :=
  if d.day < daysInMonth d.year d.month then { d with day := d.day + 1 }
  else if d.month < 12 then { d with month := d.month + 1, day := 1 }
  else { d with year := d.year + 1, month := 1, day := 1 }

def addDays (d : PyDateTime) : ℕ → PyDateTime
  | 0 => d
  | n + 1 => nextDay (addDays d n)

/-! ## `datetime.strptime`, for the directive sequences used by the source -/

/-- One token of a `strptime` format string: a literal character, a
whitespace run, or one of the numeric / month-name directives the source
uses (`%Y %m %d %H %M %S %B %b`). -/
inductive FmtTok where
  | lit (c : Char)
  | ws
  | dY | dm | dd | dH | dMin | dS | dB | db
deriving DecidableEq, Repr

/-- Parsed field accumulator with `strptime`'s defaults (1900-01-01 00:00:00). -/
structure PFields where
  fY : ℕ := 1900
  fM : ℕ := 1
  fD : ℕ := 1
  fH : ℕ := 0
  fMin : ℕ := 0
  fS : ℕ := 0
deriving DecidableEq, Repr

def digVal (c : Char) : ℕ := c.toNat - 48

/-- Candidates for a 1-or-2-digit numeric directive, two-digit alternative
first, exactly as in CPython's `_strptime` regexes. -/
def numCands (valid2 valid1 : ℕ → Bool) : List Char → List (ℕ × List Char)
  | c1 :: c2 :: rest =>
      (if c1.isDigit && c2.isDigit && valid2 (10 * digVal c1 + digVal c2)
        then [(10 * digVal c1 + digVal c2, rest)] else []) ++
      (if c1.isDigit && valid1 (digVal c1) then [(digVal c1, c2 :: rest)] else [])
  | [c1] => if c1.isDigit && valid1 (digVal c1) then [(digVal c1, [])] else []
  | [] => []

/-- Directive `%Y`: exactly four digits. -/
def yearCands : List Char → List (ℕ × List Char)
  | c1 :: c2 :: c3 :: c4 :: rest =>
      if c1.isDigit && c2.isDigit && c3.isDigit && c4.isDigit then
        [(1000 * digVal c1 + 100 * digVal c2 + 10 * digVal c3 + digVal c4, rest)]
      else []
  | _ => []

def MONTH_NAMES : List (String × ℕ) :=
  [("january", 1), ("february", 2), ("march", 3), ("april", 4), ("may", 5),
   ("june", 6), ("july", 7), ("august", 8), ("september", 9), ("october", 10),
   ("november", 11), ("december", 12)]

def MONTH_ABBRS : List (String × ℕ) :=
  [("jan", 1), ("feb", 2), ("mar", 3), ("apr", 4), ("may", 5), ("jun", 6),
   ("jul", 7), ("aug", 8), ("sep", 9), ("oct", 10), ("nov", 11), ("dec", 12)]

/-- Match a month-name table entry case-insensitively at the head of the input. -/
def monthCands (tbl : List (String × ℕ)) (cs : List Char) : List (ℕ × List Char) :=
  match tbl.findSome? (fun nm =>
      if listStartsWithCI nm.1.data cs then some (nm.2, cs.drop nm.1.length) else none) with
  | some r => [r]
  | none => []

/-- All ways to split off a (possibly empty) whitespace run. -/
def wsSplits : List Char → List (List Char)
  | [] => [[]]
  | c :: cs => (c :: cs) :: (if isPySpace c then wsSplits cs else [])

/-- Candidate continuations after matching one format token. -/
def tokCands (f : PFields) : FmtTok → List Char → List (PFields × List Char)
  | .lit c, x :: rest => if x.toLower = c.toLower then [(f, rest)] else []
  | .lit _, [] => []
  | .ws, c :: cs => if isPySpace c then (wsSplits cs).map (fun r => (f, r)) else []
  | .ws, [] => []
  | .dY, cs => (yearCands cs).map (fun p => ({ f with fY := p.1 }, p.2))
  | .dm, cs =>
      (numCands (fun v => 1 ≤ v && v ≤ 12) (fun v => 1 ≤ v) cs).map
        (fun p => ({ f with fM := p.1 }, p.2))
  | .dd, cs =>
      (numCands (fun v => 1 ≤ v && v ≤ 31) (fun v => 1 ≤ v) cs).map
        (fun p => ({ f with fD := p.1 }, p.2))
  | .dH, cs =>
      (numCands (fun v => v ≤ 23) (fun _ => true) cs).map
        (fun p => ({ f with fH := p.1 }, p.2))
  | .dMin, cs =>
      (numCands (fun v => v ≤ 59) (fun _ => true) cs).map
        (fun p => ({ f with fMin := p.1 }, p.2))
  | .dS, cs =>
      (numCands (fun v => v ≤ 59) (fun _ => true) cs).map
        (fun p => ({ f with fS := p.1 }, p.2))
  | .dB, cs => (monthCands MONTH_NAMES cs).map (fun p => ({ f with fM := p.1 }, p.2))
  | .db, cs => (monthCands MONTH_ABBRS cs).map (fun p => ({ f with fM := p.1 }, p.2))

/-- Match a whole format against the whole input (the regex built by
`_strptime` must consume the entire string), in alternation order. -/
def matchSeq : List FmtTok → PFields → List Char → List PFields
  | [], f, cs => if cs.isEmpty then [f] else []
  | t :: ts, f, cs => (tokCands f t cs).flatMap (fun fc => matchSeq ts fc.1 fc.2)

/-- The `datetime` constructor's validity test (`ValueError` otherwise). -/
def validYMDHMS (y m d hh mm ss : ℕ) : Bool :=
  1 ≤ y && y ≤ 9999 && 1 ≤ m && m ≤ 12 && 1 ≤ d && d ≤ daysInMonth y m &&
    hh ≤ 23 && mm ≤ 59 && ss ≤ 59

/-- The `datetime` constructor's validation, applied to the matched fields
(`ValueError` on an out-of-range date is caught by the source's format loop). -/
def buildPyDateTime (f : PFields) : Option PyDateTime :=
  if validYMDHMS f.fY f.fM f.fD f.fH f.fMin f.fS then
    some ⟨f.fY, f.fM, f.fD, f.fH, f.fMin, f.fS⟩
  else none

/-- Model of `datetime.strptime(s, fmt)`, returning `none` where Python raises
`ValueError` (no regex match, or constructor rejection). -/
def strptime (fmt : List FmtTok) (s : String) : Option PyDateTime :=
  match matchSeq fmt {} s.data with
  | [] => none
  | f :: _ => buildPyDateTime f

/-! ## Dictionary values

A Python dict value reaching these modules is `None`, a string, or a
`datetime`; key presence is modelled separately by `Option`. -/

inductive Val where
  | vnull
  | vstr (s : String)
  | vdt (d : PyDateTime)
deriving DecidableEq, Repr

/-! ## `src/prioritizer.py` -/

/-- Table `URGENCY_KEYWORDS` of `prioritizer.py`, in insertion order. -/
def URGENCY_KEYWORDS : List (String × ℚ) :=
  [("critical", 100), ("asap", 90), ("urgent", 85), ("immediately", 85),
   ("emergency", 95), ("today", 80), ("important", 70), ("priority", 60),
   ("soon", 50), ("time-sensitive", 80), ("time sensitive", 80)]

/-- Model of `detect_urgency_keywords`: maximum weight over keywords occurring as
substrings of the lowercased description; `0.0` for the empty description. -/
def detect_urgency_keywords (description : String) : ℚ :=
  if description = "" then 0
  else
    let dl := (strLower description).data
    URGENCY_KEYWORDS.foldl (fun acc kw => if isSubstring kw.1.data dl then max acc kw.2 else acc) 0

/-- One token of the explicit-priority regexes: a literal word, `\s*`, or `\b`. -/
inductive RTok where
  | rstr (s : String)
  | rws0
  | rwb
deriving DecidableEq, Repr

def wordAt : Option Char → Bool
  | none => false
  | some c => isWordChar c

/-- All states reachable by consuming a (possibly empty) run of whitespace,
with the character last consumed tracked for `\b`: the backtracking choices
of `\s*`. -/
def wsStates : Option Char → List Char → List (Option Char × List Char)
  | prev, [] => [(prev, [])]
  | prev, c :: cs => (prev, c :: cs) :: (if isPySpace c then wsStates (some c) cs else [])

/-- Match a token sequence at the current position (a `re` match attempt;
trailing input may remain). `prev` is the character just before the current
position, for `\b`. -/
def rtokSeqMatch : List RTok → Option Char → List Char → Bool
  | [], _, _ => true
  | .rwb :: ts, prev, cs => (wordAt prev != wordAt cs.head?) && rtokSeqMatch ts prev cs
  | .rstr s :: ts, prev, cs =>
      listStartsWithCI s.data cs &&
        rtokSeqMatch ts (if s.data.isEmpty then prev else s.data.getLast?) (cs.drop s.length)
  | .rws0 :: ts, prev, cs =>
      (wsStates prev cs).any (fun pc => rtokSeqMatch ts pc.1 pc.2)

/-- Model of `re.search`: try a match at every start position. -/
def rseqSearch (seq : List RTok) : Option Char → List Char → Bool
  | prev, cs =>
      rtokSeqMatch seq prev cs ||
        (match cs with
          | [] => false
          | c :: cs' => rseqSearch seq (some c) cs')

/-- Table `EXPLICIT_PRIORITY_PATTERNS` of `prioritizer.py`, in insertion order.
Each pattern is a list of alternatives (top-level regex alternation expanded),
each alternative a token sequence. -/
def EXPLICIT_PRIORITY_PATTERNS : List (List (List RTok) × ℚ) :=
  [([[.rwb, .rstr "critical", .rws0, .rstr "priority", .rwb],
     [.rwb, .rstr "p0", .rws0, .rstr "priority", .rwb]], 100),
   ([[.rwb, .rstr "high", .rws0, .rstr "priority", .rwb]], 75),
   ([[.rwb, .rstr "medium", .rws0, .rstr "priority", .rwb]], 50),
   ([[.rwb, .rstr "low", .rws0, .rstr "priority", .rwb]], 25),
   ([[.rwb, .rstr "p0", .rwb]], 100),
   ([[.rwb, .rstr "p1", .rwb]], 75),
   ([[.rwb, .rstr "p2", .rwb]], 50),
   ([[.rwb, .rstr "p3", .rwb]], 25)]

/-- Model of `parse_explicit_priority`: weight of the first pattern (in declaration
order) matching the lowercased description, else `None`. -/
def parse_explicit_priority (description : String) : Option ℚ :=
  if description = "" then none
  else
    let dl := (strLower description).data
    EXPLICIT_PRIORITY_PATTERNS.findSome? (fun pw =>
      if pw.1.any (fun seq => rseqSearch seq none dl) then some pw.2 else none)

/-- The ordered format list of `parse_deadline_string` (`prioritizer.py`
lines 181–191).  Note there is no `%Y/%m/%d` entry. -/
def DEADLINE_FORMATS : List (List FmtTok) :=
  [[.dY, .lit '-', .dm, .lit '-', .dd],
   [.dY, .lit '-', .dm, .lit '-', .dd, .lit 'T', .dH, .lit ':', .dMin, .lit ':', .dS],
   [.dY, .lit '-', .dm, .lit '-', .dd, .ws, .dH, .lit ':', .dMin, .lit ':', .dS],
   [.dm, .lit '/', .dd, .lit '/', .dY],
   [.dd, .lit '/', .dm, .lit '/', .dY],
   [.dB, .ws, .dd, .lit ',', .ws, .dY],
   [.db, .ws, .dd, .lit ',', .ws, .dY],
   [.dd, .ws, .dB, .ws, .dY],
   [.dd, .ws, .db, .ws, .dY]]

/-- Model of `parse_deadline_string` with the clock as parameter `now`. -/
def parse_deadline_string (now : PyDateTime) (deadline_str : String) : Option PyDateTime :=
  if deadline_str = "" then none
  else
    let dl := strStrip (strLower deadline_str)
    if dl = "today" then some now
    else if dl = "tomorrow" then some (addDays now 1)
    else DEADLINE_FORMATS.findSome? (fun fmt => strptime fmt (strStrip deadline_str))

/-- The proximity bucket table of `calculate_deadline_proximity_score`. -/
def proximityBucket (daysUntil : ℚ) : ℚ :=
  if daysUntil < 0 then 100
  else if daysUntil ≤ 1 then 95
  else if daysUntil ≤ 3 then 85
  else if daysUntil ≤ 7 then 70
  else if daysUntil ≤ 14 then 50
  else if daysUntil ≤ 30 then 30
  else 10

/-- Model of `calculate_deadline_proximity_score`: `0.0` for an absent or unparseable
deadline, else the bucket of `(deadline - now).total_seconds() / 86400`. -/
def calculate_deadline_proximity_score (now : PyDateTime) (deadline : Val) : ℚ :=
  match deadline with
  | .vnull => 0
  | .vdt d => proximityBucket (((totalSeconds d - totalSeconds now : ℤ) : ℚ) / 86400)
  | .vstr s =>
      match parse_deadline_string now s with
      | none => 0
      | some d => proximityBucket (((totalSeconds d - totalSeconds now : ℤ) : ℚ) / 86400)

/-- A task dict as seen by `prioritize_tasks`: the keys the scorer reads,
the keys the scorer writes, and an inert payload standing for all other
preserved fields. -/
structure PTask where
  description : Option String := none
  deadline : Val := .vnull
  importance_score : Option ℚ := none
  priority : Option String := none
  payload : String := ""
deriving DecidableEq, Repr

/-- The weighted combination at the tail of `calculate_importance_score`
(lines 231–253): redistribution when the explicit score is absent, the
neutral default 50 when there is no signal at all, and the clamp. -/
def combineScores (urgency_weight deadline_weight explicit_weight : ℚ)
    (urgency_score deadline_score : ℚ) (explicit_score : Option ℚ) : ℚ :=
  let total_score :=
    match explicit_score with
    | some es =>
        urgency_score * urgency_weight + deadline_score * deadline_weight +
          es * explicit_weight
    | none =>
        urgency_score * (urgency_weight + explicit_weight * 0.4) +
          deadline_score * (deadline_weight + explicit_weight * 0.6)
  if total_score = 0 ∧ urgency_score = 0 ∧ deadline_score = 0 ∧ explicit_score = none
    then 50
  else min 100 (max 0 total_score)

/-- Model of `calculate_importance_score` at the default weights 0.3 / 0.4 / 0.3. -/
def calculate_importance_score (now : PyDateTime) (task : PTask) : ℚ :=
  let description := task.description.getD ""
  combineScores 0.3 0.4 0.3
    (detect_urgency_keywords description)
    (calculate_deadline_proximity_score now task.deadline)
    (parse_explicit_priority description)

/-- Model of `map_score_to_priority_level`. -/
def map_score_to_priority_level (score : ℚ) : String :=
  if 80 ≤ score then "critical"
  else if 60 ≤ score then "high"
  else if 30 ≤ score then "medium"
  else "low"

/-- The per-task augmentation step of `prioritize_tasks` (score and tier are
written into the task dict). -/
def augmentTask (now : PyDateTime) (task : PTask) : PTask :=
  let score := calculate_importance_score now task
  { task with importance_score := some score,
              priority := some (map_score_to_priority_level score) }

/-- The sort key comparison of `prioritize_tasks`: Python's
`sorted(key=..., reverse=True)` is the stable non-increasing sort by
`t.get("importance_score", 0)`. -/
def scoreGe (a b : PTask) : Bool :=
  b.importance_score.getD 0 ≤ a.importance_score.getD 0

/-- Model of `prioritize_tasks`. -/
def prioritize_tasks (now : PyDateTime) (tasks : List PTask) : List PTask :=
  if tasks.isEmpty then []
  else (tasks.map (augmentTask now)).mergeSort scoreGe

/-! ## `src/json_generator.py` -/

/-- Model of `date_value.replace('Z', '+00:00')`: a single-character pattern replace. -/
def replaceZ (cs : List Char) : List Char :=
  cs.flatMap (fun c => if c = 'Z' then "+00:00".data else [c])

def digitChar (n : ℕ) : Char := Char.ofNat (48 + n % 10)

def pad4 (n : ℕ) : List Char :=
  [digitChar (n / 1000), digitChar (n / 100), digitChar (n / 10), digitChar n]

def pad2 (n : ℕ) : List Char := [digitChar (n / 10), digitChar n]

/-- Model of `datetime.strftime("%Y-%m-%d")`. -/
def strftimeYMD (d : PyDateTime) : String :=
  String.mk (pad4 d.year ++ '-' :: pad2 d.month ++ '-' :: pad2 d.day)

/-- The time tail accepted by our `fromisoformat` model: `HH`, `HH:MM` or
`HH:MM:SS` with two-digit fields.  (Fractional seconds and UTC offsets are
not modelled; strings using them take the source's fallback path, which no
verified property depends on.) -/
def isoTimeTail : List Char → Option (ℕ × ℕ × ℕ)
  | [a, b] =>
      if a.isDigit && b.isDigit then some (10 * digVal a + digVal b, 0, 0) else none
  | [a, b, c1, c, d] =>
      if a.isDigit && b.isDigit && c1 = ':' && c.isDigit && d.isDigit then
        some (10 * digVal a + digVal b, 10 * digVal c + digVal d, 0)
      else none
  | [a, b, c1, c, d, c2, e, f] =>
      if a.isDigit && b.isDigit && c1 = ':' && c.isDigit && d.isDigit &&
          c2 = ':' && e.isDigit && f.isDigit then
        some (10 * digVal a + digVal b, 10 * digVal c + digVal d, 10 * digVal e + digVal f)
      else none
  | _ => none

/-- Model of `datetime.fromisoformat`: a `YYYY-MM-DD` date, optionally followed by a
one-character separator and a time, validated as the constructor would. -/
def fromisoformat : List Char → Option PyDateTime
  | y1 :: y2 :: y3 :: y4 :: s1 :: m1 :: m2 :: s2 :: d1 :: d2 :: rest =>
      if y1.isDigit && y2.isDigit && y3.isDigit && y4.isDigit && s1 = '-' &&
          m1.isDigit && m2.isDigit && s2 = '-' && d1.isDigit && d2.isDigit then
        let y := 1000 * digVal y1 + 100 * digVal y2 + 10 * digVal y3 + digVal y4
        let m := 10 * digVal m1 + digVal m2
        let d := 10 * digVal d1 + digVal d2
        match rest with
        | [] => if validYMDHMS y m d 0 0 0 then some ⟨y, m, d, 0, 0, 0⟩ else none
        | _ :: ttail =>
            match isoTimeTail ttail with
            | some (hh, mm, ss) =>
                if validYMDHMS y m d hh mm ss then some ⟨y, m, d, hh, mm, ss⟩ else none
            | none => none
      else none
  | _ => none

/-- The ordered format list of `format_date_iso8601` (`json_generator.py`
lines 41–50); unlike the prioritizer's list, it has `%Y/%m/%d`. -/
def JSON_DATE_FORMATS : List (List FmtTok) :=
  [[.dY, .lit '-', .dm, .lit '-', .dd],
   [.dm, .lit '/', .dd, .lit '/', .dY],
   [.dd, .lit '/', .dm, .lit '/', .dY],
   [.dY, .lit '/', .dm, .lit '/', .dd],
   [.dB, .ws, .dd, .lit ',', .ws, .dY],
   [.db, .ws, .dd, .lit ',', .ws, .dY],
   [.dd, .ws, .dB, .ws, .dY],
   [.dd, .ws, .db, .ws, .dY]]

/-- Model of `format_date_iso8601`: ISO-parse first, then the explicit format list,
and on total failure the original string (never silently dropped). -/
def format_date_iso8601 (date_value : Val) : Option String :=
  match date_value with
  | .vnull => none
  | .vdt d => some (strftimeYMD d)
  | .vstr s =>
      if s = "" then none
      else
        match fromisoformat (replaceZ s.data) with
        | some d => some (strftimeYMD d)
        | none =>
            match JSON_DATE_FORMATS.findSome? (fun fmt => strptime fmt (strStrip s)) with
            | some d => some (strftimeYMD d)
            | none => some s

/-- A task dict as seen by `json_generator.py`: the seven schema keys, each
possibly absent. -/
structure JTask where
  task : Option Val := none
  owner : Option Val := none
  deadline : Option Val := none
  priority : Option Val := none
  category : Option Val := none
  source_email : Option Val := none
  summary : Option Val := none
deriving DecidableEq, Repr

/-- Model of `validate_task_structure`: all seven required keys present. -/
def validate_task_structure (t : JTask) : Bool :=
  t.task.isSome && t.owner.isSome && t.deadline.isSome && t.priority.isSome &&
    t.category.isSome && t.source_email.isSome && t.summary.isSome

/-- One record of `build_json_structure`'s output: `task.get(k, '')` for the
six pass-through keys, and the canonicalized deadline. -/
def formatTask (t : JTask) : JTask :=
  { task := some (t.task.getD (.vstr "")),
    owner := some (t.owner.getD (.vstr "")),
    deadline := some (match format_date_iso8601 (t.deadline.getD .vnull) with
      | some s => .vstr s
      | none => .vnull),
    priority := some (t.priority.getD (.vstr "")),
    category := some (t.category.getD (.vstr "")),
    source_email := some (t.source_email.getD (.vstr "")),
    summary := some (t.summary.getD (.vstr "")) }

/-- Model of `build_json_structure`: skip (with a warning) any task failing
validation, format the rest in order. -/
def build_json_structure : List JTask → List JTask
  | [] => []
  | t :: rest =>
      if validate_task_structure t then formatTask t :: build_json_structure rest
      else build_json_structure rest

/-- The diagnostics side channel of `build_json_structure`: the tasks for
which the warning `Task missing required fields` is printed, in order. -/
def build_json_diagnostics : List JTask → List JTask
  | [] => []
  | t :: rest =>
      if validate_task_structure t then build_json_diagnostics rest
      else t :: build_json_diagnostics rest

/-! ## Concrete inputs used by witnesses and counterexamples -/

/-- The rank of a tier in the order low < medium < high < critical. -/
def tierRank (t : String) : ℕ :=
  if t = "critical" then 3 else if t = "high" then 2 else if t = "medium" then 1 else 0

/-- A fixed evaluation instant standing for `datetime.now()`. -/
def sampleNow : PyDateTime := ⟨2024, 1, 15, 12, 0, 0⟩

/-- The spec's scenario candidate `{description:"p0 priority fix", deadline:"today"}`. -/
def p0Task : PTask := { description := some "p0 priority fix", deadline := .vstr "today" }

/-- A candidate whose only signal is the lowest explicit pattern `p3`. -/
def p3Task : PTask := { description := some "p3 fix docs" }

/-- A complete record carrying the scoring engine's `critical` tier. -/
def criticalTask : JTask :=
  { task := some (.vstr "fix prod outage"), owner := some (.vstr "alice"),
    deadline := some .vnull, priority := some (.vstr "critical"),
    category := some (.vstr "deadline"), source_email := some (.vstr "e1.txt"),
    summary := some (.vstr "outage follow-up") }

/-- A complete, schema-conformant record. -/
def goodTask : JTask :=
  { task := some (.vstr "review proposal"), owner := some (.vstr "john"),
    deadline := some (.vstr "2024-01-15"), priority := some (.vstr "high"),
    category := some (.vstr "review"), source_email := some (.vstr "email_001.txt"),
    summary := some (.vstr "review q1 proposal") }

/-- A record missing only the `summary` key. -/
def noSummaryTask : JTask :=
  { task := some (.vstr "submit report"), owner := some .vnull,
    deadline := some .vnull, priority := some (.vstr "medium"),
    category := some (.vstr "deadline"), source_email := some (.vstr "email_002.txt") }

/-- Two signal-free candidates distinguished only by their preserved
payload; they tie at the neutral score 50. -/
def tieA : PTask := { payload := "first" }

/-- See `tieA`. -/
def tieB : PTask := { payload := "second" }

/-! ## Theorems -/

/-- The tier rank of a classified score, as a single threshold chain. -/
theorem tierRank_map_score (s : ℚ) :
    tierRank (map_score_to_priority_level s) =
      if 80 ≤ s then 3 else if 60 ≤ s then 2 else if 30 ≤ s then 1 else 0 := by
  unfold map_score_to_priority_level tierRank
  split_ifs <;> simp_all

/-- C4: the tier classifier realizes the four inclusive-lower-bound bands
(≥80 critical, [60,80) high, [30,60) medium, <30 low) and is monotone for
the order low < medium < high < critical. -/
theorem tier_classifier_spec :
    (∀ s : ℚ,
      (map_score_to_priority_level s = "critical" ↔ 80 ≤ s) ∧
      (map_score_to_priority_level s = "high" ↔ 60 ≤ s ∧ s < 80) ∧
      (map_score_to_priority_level s = "medium" ↔ 30 ≤ s ∧ s < 60) ∧
      (map_score_to_priority_level s = "low" ↔ s < 30)) ∧
    (∀ s1 s2 : ℚ, s1 ≤ s2 →
      tierRank (map_score_to_priority_level s1) ≤ tierRank (map_score_to_priority_level s2)) := by
  constructor
  · intro s
    unfold map_score_to_priority_level
    split_ifs with h1 h2 h3 <;> refine ⟨?_, ?_, ?_, ?_⟩ <;> simp_all <;>
      (first
        | linarith
        | (intro h4; linarith))
  · intro s1 s2 h
    rw [tierRank_map_score, tierRank_map_score]
    split_ifs <;> (first | omega | linarith)

/-- C4 witness: a medium score classifies no higher than a critical one. -/
theorem tier_classifier_spec_witness :
    tierRank (map_score_to_priority_level 45) ≤ tierRank (map_score_to_priority_level 85) :=
  tier_classifier_spec.2 45 85 (by norm_num)

/-- C1: the score combiner at the default weights: the three-way weighted
sum when an explicit score is present, the redistributed 0.42 / 0.58 sum
when it is absent, the neutral default 50 on no signal at all, and a result
always within [0,100]. -/
theorem combiner_spec (u d : ℚ) (e : Option ℚ)
    (hu0 : 0 ≤ u) (hu1 : u ≤ 100) (hd0 : 0 ≤ d) (hd1 : d ≤ 100)
    (he : ∀ x, e = some x → 0 ≤ x ∧ x ≤ 100) :
    (∀ x, e = some x → combineScores 0.3 0.4 0.3 u d e = u * 0.3 + d * 0.4 + x * 0.3) ∧
    (e = none → ¬(u = 0 ∧ d = 0) → combineScores 0.3 0.4 0.3 u d e = u * 0.42 + d * 0.58) ∧
    (e = none → u = 0 → d = 0 → combineScores 0.3 0.4 0.3 u d e = 50) ∧
    (0 ≤ combineScores 0.3 0.4 0.3 u d e ∧ combineScores 0.3 0.4 0.3 u d e ≤ 100) := by
  refine ⟨?_, ?_, ?_, ?_⟩
  · rintro x rfl
    obtain ⟨hx0, hx1⟩ := he x rfl
    unfold combineScores
    rw [if_neg (by simp)]
    rw [max_eq_right (by positivity), min_eq_right (by linarith)]
  · rintro rfl hne
    unfold combineScores
    rw [if_neg (by rintro ⟨h0, hu, hd, -⟩; exact hne ⟨hu, hd⟩)]
    rw [max_eq_right (by positivity), min_eq_right (by nlinarith)]
    ring_nf
  · rintro rfl rfl rfl
    unfold combineScores
    rw [if_pos (by norm_num)]
  · rcases e with _ | x <;> simp only [combineScores] <;> split_ifs <;> norm_num

/-- C1 witness: at urgency 50, deadline 50, explicit 50, the combiner
returns the plain weighted sum. -/
theorem combiner_spec_witness :
    combineScores 0.3 0.4 0.3 50 50 (some 50) = 50 * 0.3 + 50 * 0.4 + 50 * 0.3 :=
  (combiner_spec 50 50 (some 50) (by norm_num) (by norm_num) (by norm_num) (by norm_num)
    (fun x hx => by injection hx with h; subst h; exact ⟨by norm_num, by norm_num⟩)).1 50 rfl

/-- A deadline of `"today"` scores 95 at a shared evaluation instant. -/
theorem today_scores_95 (now : PyDateTime) :
    calculate_deadline_proximity_score now (.vstr "today") = 95 := by
  have h : parse_deadline_string now "today" = some now := by
    unfold parse_deadline_string
    rw [if_neg (by simp), if_pos (by decide)]
  simp [calculate_deadline_proximity_score, h, proximityBucket]

/-- The combined score of the scenario candidate
`{description:"p0 priority fix", deadline:"today"}`. -/
theorem p0Task_score (now : PyDateTime) :
    calculate_importance_score now p0Task = 86 := by
  have h1 : detect_urgency_keywords "p0 priority fix" = 60 := by decide
  have h2 : parse_explicit_priority "p0 priority fix" = some 100 := by decide
  have h3 := today_scores_95 now
  simp only [calculate_importance_score, p0Task, Option.getD_some, h1, h2, h3, combineScores]
  norm_num

/-- C2 counterexample: on `{description:"p0 priority fix", deadline:"today"}`
the engine's combined score is not 68 and the tier is not `high` —
`urgency_score` is 60, not 0, because the substring `"priority"` is itself
an urgency keyword. -/
theorem p0_scenario_counterexample :
    detect_urgency_keywords "p0 priority fix" = 60 ∧
    calculate_importance_score sampleNow p0Task ≠ 68 ∧
    map_score_to_priority_level (calculate_importance_score sampleNow p0Task) ≠ "high" := by
  have hs := p0Task_score sampleNow
  refine ⟨by decide, by rw [hs]; norm_num, ?_⟩
  rw [hs]
  unfold map_score_to_priority_level
  rw [if_pos (by norm_num)]
  simp

/-- C2 amended: on `{description:"p0 priority fix", deadline:"today"}` the
engine computes explicit 100, deadline 95, urgency 60 (the keyword
`"priority"` matches as a substring), hence combined
60*0.3 + 95*0.4 + 100*0.3 = 86 and tier `critical`. -/
theorem p0_scenario_amended :
    parse_explicit_priority "p0 priority fix" = some 100 ∧
    calculate_deadline_proximity_score sampleNow (.vstr "today") = 95 ∧
    detect_urgency_keywords "p0 priority fix" = 60 ∧
    calculate_importance_score sampleNow p0Task = (60 : ℚ) * 0.3 + 95 * 0.4 + 100 * 0.3 ∧
    map_score_to_priority_level (calculate_importance_score sampleNow p0Task) = "critical" := by
  have hs := p0Task_score sampleNow
  refine ⟨by decide, today_scores_95 sampleNow, by decide, by rw [hs]; norm_num, ?_⟩
  rw [hs]
  unfold map_score_to_priority_level
  rw [if_pos (by norm_num)]

/-- C5 counterexample: `"2024/01/15"` does not parse — the format list of
`parse_deadline_string` has no `%Y/%m/%d` entry. -/
theorem slash_date_counterexample :
    parse_deadline_string sampleNow "2024/01/15" = none := by decide

/-- C5 amended: away from the literals `today`/`tomorrow`, the parser tries
exactly its fixed ordered format list — ISO date, ISO date-time, space
date-time, MM/DD/YYYY, DD/MM/YYYY, and the month-name forms, with no
YYYY/MM/DD — first success winning, and returns `None` (never raising) when
no format matches, as on `"2024/01/15"`. -/
theorem parse_deadline_formats_amended :
    (∀ (now : PyDateTime) (s : String),
      strStrip (strLower s) ≠ "today" → strStrip (strLower s) ≠ "tomorrow" →
      parse_deadline_string now s =
        DEADLINE_FORMATS.findSome? (fun fmt => strptime fmt (strStrip s))) ∧
    (∀ now : PyDateTime, parse_deadline_string now "2024/01/15" = none) := by
  constructor
  · intro now s h1 h2
    unfold parse_deadline_string
    by_cases he : s = ""
    · subst he
      rw [if_pos rfl]
      decide
    · rw [if_neg he]
      dsimp only
      rw [if_neg h1, if_neg h2]
  · intro now
    unfold parse_deadline_string
    rw [if_neg (by simp), if_neg (by decide), if_neg (by decide)]
    decide

/-- C5 witness: an ISO date is resolved through the format list. -/
theorem parse_deadline_formats_amended_witness :
    parse_deadline_string sampleNow "2024-01-15" =
      DEADLINE_FORMATS.findSome? (fun fmt => strptime fmt (strStrip "2024-01-15")) :=
  parse_deadline_formats_amended.1 sampleNow "2024-01-15" (by decide) (by decide)

/-- C8: deadline canonicalization round-trips — `"2024-01-15"` maps to
itself, and `"Jan 15, 2024"` and `"15 Jan 2024"` map to that same value. -/
theorem canonicalize_roundtrip :
    format_date_iso8601 (.vstr "2024-01-15") = some "2024-01-15" ∧
    format_date_iso8601 (.vstr "Jan 15, 2024") = some "2024-01-15" ∧
    format_date_iso8601 (.vstr "15 Jan 2024") = some "2024-01-15" :=
  ⟨by decide, by decide, by decide⟩

/-- C6 counterexample: a record carrying the engine's `critical` tier is
emitted by the output stage with priority `critical` — no coercion into
the three-value enumeration happens. -/
theorem critical_passthrough_counterexample :
    build_json_structure [criticalTask] = [formatTask criticalTask] ∧
    (formatTask criticalTask).priority = some (.vstr "critical") ∧
    (Val.vstr "critical") ∉ [Val.vstr "high", Val.vstr "medium", Val.vstr "low"] := by
  refine ⟨by decide, by decide, by decide⟩

/-- C6 amended: the output stage passes `priority` through unchanged — every
emitted record has the priority value of the task it came from, so a record
assigned `critical` is emitted as `critical` (four possible values, not
three). -/
theorem priority_passthrough_amended :
    ∀ (ts : List JTask) (r : JTask), r ∈ build_json_structure ts →
      ∃ t ∈ ts, validate_task_structure t = true ∧ r = formatTask t ∧
        r.priority = t.priority := by
  intro ts
  induction ts with
  | nil => intro r hr; simp [build_json_structure] at hr
  | cons t rest ih =>
      intro r hr
      unfold build_json_structure at hr
      by_cases hv : validate_task_structure t
      · rw [if_pos hv] at hr
        rcases List.mem_cons.mp hr with hr1 | hr2
        · subst hr1
          refine ⟨t, List.mem_cons_self t rest, hv, rfl, ?_⟩
          have hp : t.priority.isSome := by
            unfold validate_task_structure at hv
            simp only [Bool.and_eq_true] at hv
            exact hv.1.1.1.2
          obtain ⟨v, hveq⟩ := Option.isSome_iff_exists.mp hp
          simp [formatTask, hveq]
        · obtain ⟨t', ht', hvt', hr', hp'⟩ := ih r hr2
          exact ⟨t', List.mem_cons_of_mem t ht', hvt', hr', hp'⟩
      · rw [if_neg hv] at hr
        obtain ⟨t', ht', hvt', hr', hp'⟩ := ih r hr
        exact ⟨t', List.mem_cons_of_mem t ht', hvt', hr', hp'⟩

/-- C6 witness: the emitted `critical` record originates from
`criticalTask` with its priority intact. -/
theorem priority_passthrough_amended_witness :
    ∃ t ∈ [criticalTask], validate_task_structure t = true ∧
      formatTask criticalTask = formatTask t ∧
      (formatTask criticalTask).priority = t.priority :=
  priority_passthrough_amended [criticalTask] (formatTask criticalTask) (by decide)

/-- C7: the validator/normalizer drops exactly the records missing one of
the seven required keys, emits a diagnostic for each dropped record, and
keeps processing: the output is precisely the valid records, formatted, in
order. -/
theorem validator_drops_missing :
    (∀ t : JTask, validate_task_structure t = false ↔
      (t.task = none ∨ t.owner = none ∨ t.deadline = none ∨ t.priority = none ∨
       t.category = none ∨ t.source_email = none ∨ t.summary = none)) ∧
    (∀ ts : List JTask,
      build_json_structure ts = (ts.filter validate_task_structure).map formatTask) ∧
    (∀ ts : List JTask,
      build_json_diagnostics ts = ts.filter (fun t => !validate_task_structure t)) ∧
    (∀ (ts : List JTask), ∀ t ∈ ts, validate_task_structure t = false →
      t ∈ build_json_diagnostics ts) ∧
    (∀ (ts : List JTask), ∀ t ∈ ts, validate_task_structure t = true →
      formatTask t ∈ build_json_structure ts) := by
  have hfilter : ∀ ts : List JTask,
      build_json_structure ts = (ts.filter validate_task_structure).map formatTask := by
    intro ts
    induction ts with
    | nil => rfl
    | cons t rest ih =>
        unfold build_json_structure
        by_cases hv : validate_task_structure t <;>
          simp [hv, List.filter_cons, ih]
  have hdiag : ∀ ts : List JTask,
      build_json_diagnostics ts = ts.filter (fun t => !validate_task_structure t) := by
    intro ts
    induction ts with
    | nil => rfl
    | cons t rest ih =>
        unfold build_json_diagnostics
        by_cases hv : validate_task_structure t <;>
          simp [hv, List.filter_cons, ih]
  refine ⟨?_, hfilter, hdiag, ?_, ?_⟩
  · intro t
    unfold validate_task_structure
    constructor
    · intro h
      by_contra hall
      push_neg at hall
      obtain ⟨h1, h2, h3, h4, h5, h6, h7⟩ := hall
      simp [Option.isSome_iff_ne_none, h1, h2, h3, h4, h5, h6, h7] at h
    · intro h
      rcases h with h | h | h | h | h | h | h <;> simp [h]
  · intro ts t ht hv
    rw [hdiag]
    exact List.mem_filter.mpr ⟨ht, by simp [hv]⟩
  · intro ts t ht hv
    rw [hfilter]
    exact List.mem_map_of_mem formatTask (List.mem_filter.mpr ⟨ht, hv⟩)

/-- C7 witness: in a batch with a record missing only `summary`, that record
is dropped with a diagnostic while the complete record is still emitted. -/
theorem validator_drops_missing_witness :
    noSummaryTask ∈ build_json_diagnostics [goodTask, noSummaryTask] ∧
    formatTask goodTask ∈ build_json_structure [goodTask, noSummaryTask] :=
  ⟨validator_drops_missing.2.2.2.1 [goodTask, noSummaryTask] noSummaryTask (by decide) (by decide),
   validator_drops_missing.2.2.2.2 [goodTask, noSummaryTask] goodTask (by decide) (by decide)⟩

/-- The explicit-priority detector only ever returns a weight of its
pattern table. -/
theorem parse_explicit_values (s : String) (w : ℚ)
    (h : parse_explicit_priority s = some w) :
    w = 100 ∨ w = 75 ∨ w = 50 ∨ w = 25 := by
  unfold parse_explicit_priority at h
  split_ifs at h
  obtain ⟨a, ha, hfa⟩ := List.exists_of_findSome?_eq_some h
  have := EXPLICIT_PRIORITY_PATTERNS
  fin_cases ha <;> (split_ifs at hfa; injection hfa with hw) <;> subst hw <;> simp

/-- C10: a task whose only signal is an explicit-priority pattern of weight
w scores exactly w*0.3, which is strictly below the neutral default 50 of a
task with no signal at all; for the lowest pattern `p3` (w = 25) the score
is 7.5 with tier `low`, while the no-signal task scores 50 with tier
`medium`. -/
theorem explicit_low_beats_nothing :
    (∀ (now : PyDateTime) (t : PTask) (w : ℚ),
      parse_explicit_priority (t.description.getD "") = some w →
      detect_urgency_keywords (t.description.getD "") = 0 →
      (t.deadline = .vnull ∨
        ∃ s, t.deadline = .vstr s ∧ parse_deadline_string now s = none) →
      calculate_importance_score now t = w * 0.3 ∧ w * 0.3 < 50) ∧
    (∀ now : PyDateTime,
      calculate_importance_score now p3Task = 15/2 ∧
      map_score_to_priority_level (15/2) = "low" ∧
      calculate_importance_score now {} = 50 ∧
      map_score_to_priority_level 50 = "medium" ∧ (15/2 : ℚ) < 50) := by
  constructor
  · intro now t w hexp hurg hdl
    have hprox : calculate_deadline_proximity_score now t.deadline = 0 := by
      rcases hdl with h | ⟨s, hs, hps⟩
      · rw [h]; rfl
      · rw [hs]
        simp [calculate_deadline_proximity_score, hps]
    have hw : w = 100 ∨ w = 75 ∨ w = 50 ∨ w = 25 :=
      parse_explicit_values _ w hexp
    have hmain : calculate_importance_score now t = w * 0.3 := by
      simp only [calculate_importance_score]
      rw [hurg, hprox, hexp]
      unfold combineScores
      rw [if_neg (by simp)]
      dsimp only
      have h1 : (0 : ℚ) * 0.3 + 0 * 0.4 + w * 0.3 = w * 0.3 := by ring
      rw [h1]
      rw [max_eq_right (by rcases hw with h | h | h | h <;> subst h <;> norm_num),
          min_eq_right (by rcases hw with h | h | h | h <;> subst h <;> norm_num)]
    exact ⟨hmain, by rcases hw with h | h | h | h <;> subst h <;> norm_num⟩
  · intro now
    have hp3 : calculate_importance_score now p3Task = 15/2 := by
      have h1 : detect_urgency_keywords "p3 fix docs" = 0 := by decide
      have h2 : parse_explicit_priority "p3 fix docs" = some 25 := by decide
      simp only [calculate_importance_score, p3Task, Option.getD_some, h1, h2,
        calculate_deadline_proximity_score, combineScores]
      norm_num
    have hdefault : calculate_importance_score now ({} : PTask) = 50 := by
      have h1 : detect_urgency_keywords "" = 0 := by decide
      have h2 : parse_explicit_priority "" = none := by decide
      simp only [calculate_importance_score, Option.getD_none, h1, h2,
        calculate_deadline_proximity_score, combineScores]
      norm_num
    refine ⟨hp3, ?_, hdefault, ?_, by norm_num⟩
    · unfold map_score_to_priority_level
      rw [if_neg (by norm_num), if_neg (by norm_num), if_neg (by norm_num)]
    · unfold map_score_to_priority_level
      rw [if_neg (by norm_num), if_neg (by norm_num), if_pos (by norm_num)]

/-- C10 witness: the `p3` candidate scores 25*0.3 < 50 through the general
statement. -/
theorem explicit_low_beats_nothing_witness :
    calculate_importance_score sampleNow p3Task = 25 * 0.3 ∧ (25 : ℚ) * 0.3 < 50 :=
  explicit_low_beats_nothing.1 sampleNow p3Task 25 (by decide) (by decide)
    (Or.inl rfl)

/-- The ranking comparison is transitive. -/
theorem scoreGe_trans : ∀ a b c : PTask,
    scoreGe a b = true → scoreGe b c = true → scoreGe a c = true := by
  intro a b c hab hbc
  simp only [scoreGe, decide_eq_true_eq] at *
  exact le_trans hbc hab

/-- The ranking comparison is total. -/
theorem scoreGe_total : ∀ a b : PTask, (scoreGe a b || scoreGe b a) = true := by
  intro a b
  simp only [scoreGe, Bool.or_eq_true, decide_eq_true_eq]
  exact le_total _ _

/-- C3: the ranker returns a permutation of the score-annotated input,
sorted by combined score in non-increasing order, stably — any two
annotated candidates with equal scores keep their relative input order —
and the empty input yields the empty output. -/
theorem ranker_spec :
    (∀ (now : PyDateTime) (tasks : List PTask),
      (prioritize_tasks now tasks).Perm (tasks.map (augmentTask now)) ∧
      (prioritize_tasks now tasks).Pairwise
        (fun a b => b.importance_score.getD 0 ≤ a.importance_score.getD 0) ∧
      (∀ a b : PTask, List.Sublist [a, b] (tasks.map (augmentTask now)) →
        a.importance_score.getD 0 = b.importance_score.getD 0 →
        List.Sublist [a, b] (prioritize_tasks now tasks))) ∧
    (∀ now : PyDateTime, prioritize_tasks now [] = []) := by
  constructor
  · intro now tasks
    unfold prioritize_tasks
    by_cases hemp : tasks.isEmpty
    · have hnil : tasks = [] := by simpa using hemp
      subst hnil
      refine ⟨by simp, by simp, ?_⟩
      intro a b hsub
      simp at hsub
    · rw [if_neg hemp]
      refine ⟨List.mergeSort_perm _ _, ?_, ?_⟩
      · have hp := List.sorted_mergeSort scoreGe_trans scoreGe_total
          (tasks.map (augmentTask now))
        exact hp.imp (fun hab => by simpa [scoreGe, decide_eq_true_eq] using hab)
      · intro a b hsub heq
        apply List.sublist_mergeSort scoreGe_trans scoreGe_total ?_ hsub
        refine List.pairwise_cons.mpr ⟨?_, List.pairwise_singleton _ _⟩
        intro x hx
        rw [List.mem_singleton.mp hx]
        simp only [scoreGe, decide_eq_true_eq, heq, le_refl]
  · intro now
    rfl

/-- C3 witness: two tied candidates come out of the ranker in input order. -/
theorem ranker_spec_witness :
    List.Sublist [augmentTask sampleNow tieA, augmentTask sampleNow tieB]
      (prioritize_tasks sampleNow [tieA, tieB]) := by
  have h50 : ∀ p : String, calculate_importance_score sampleNow { payload := p } = 50 := by
    intro p
    have ha : detect_urgency_keywords "" = 0 := by decide
    have hb : parse_explicit_priority "" = none := by decide
    simp only [calculate_importance_score, Option.getD_none, ha, hb,
      calculate_deadline_proximity_score, combineScores]
    norm_num
  exact (ranker_spec.1 sampleNow [tieA, tieB]).2.2 (augmentTask sampleNow tieA)
    (augmentTask sampleNow tieB) (List.Sublist.refl _)
    (by simp [augmentTask, tieA, tieB, h50 "first", h50 "second"])

/-! ## Digit and date-shape lemmas supporting idempotence -/


theorem digitChar_mem (n : ℕ) :
    digitChar n ∈ ['0','1','2','3','4','5','6','7','8','9'] := by
  unfold digitChar
  have h : n % 10 = 0 ∨ n % 10 = 1 ∨ n % 10 = 2 ∨ n % 10 = 3 ∨ n % 10 = 4 ∨
      n % 10 = 5 ∨ n % 10 = 6 ∨ n % 10 = 7 ∨ n % 10 = 8 ∨ n % 10 = 9 := by omega
  rcases h with h | h | h | h | h | h | h | h | h | h <;> rw [h] <;> decide

theorem digitChar_congr (a b : ℕ) (h : a % 10 = b % 10) : digitChar a = digitChar b := by
  unfold digitChar
  rw [h]

theorem digVal_digitChar (n : ℕ) : digVal (digitChar n) = n % 10 := by
  have h : n % 10 = 0 ∨ n % 10 = 1 ∨ n % 10 = 2 ∨ n % 10 = 3 ∨ n % 10 = 4 ∨
      n % 10 = 5 ∨ n % 10 = 6 ∨ n % 10 = 7 ∨ n % 10 = 8 ∨ n % 10 = 9 := by omega
  unfold digitChar digVal
  rcases h with h | h | h | h | h | h | h | h | h | h <;> rw [h] <;> decide

theorem digitChar_isDigit (n : ℕ) : (digitChar n).isDigit = true := by
  have h := digitChar_mem n
  generalize digitChar n = c at h ⊢
  fin_cases h <;> decide

theorem digitChar_not_space (n : ℕ) : isPySpace (digitChar n) = false := by
  have h := digitChar_mem n
  generalize digitChar n = c at h ⊢
  fin_cases h <;> decide

theorem digitChar_ne_of (n : ℕ) (c : Char)
    (hc : c ∉ ['0','1','2','3','4','5','6','7','8','9']) : ¬(digitChar n = c) :=
  fun h => hc (h ▸ digitChar_mem n)

theorem toLower_ne_digitChar (c : Char) (hc : c ∈ ['j','f','m','a','s','o','n','d'])
    (k : ℕ) : (c.toLower = (digitChar k).toLower) = false := by
  have h := digitChar_mem k
  generalize digitChar k = b at h ⊢
  fin_cases hc <;> fin_cases h <;> decide

theorem listStartsWithCI_false_head (c b : Char) (cs bs : List Char)
    (h : (c.toLower = b.toLower) = false) : listStartsWithCI (c :: cs) (b :: bs) = false := by
  simp [listStartsWithCI, h]

theorem monthCands_digit_names (k : ℕ) (rest : List Char) :
    monthCands MONTH_NAMES (digitChar k :: rest) = [] := by
  have hfalse : ∀ nm ∈ MONTH_NAMES,
      listStartsWithCI nm.1.data (digitChar k :: rest) = false := by
    intro nm hnm
    fin_cases hnm <;>
      exact listStartsWithCI_false_head _ _ _ _ (toLower_ne_digitChar _ (by decide) k)
  unfold monthCands
  rw [List.findSome?_eq_none_iff.mpr (fun nm hnm => by simp [hfalse nm hnm])]

theorem monthCands_digit_abbrs (k : ℕ) (rest : List Char) :
    monthCands MONTH_ABBRS (digitChar k :: rest) = [] := by
  have hfalse : ∀ nm ∈ MONTH_ABBRS,
      listStartsWithCI nm.1.data (digitChar k :: rest) = false := by
    intro nm hnm
    fin_cases hnm <;>
      exact listStartsWithCI_false_head _ _ _ _ (toLower_ne_digitChar _ (by decide) k)
  unfold monthCands
  rw [List.findSome?_eq_none_iff.mpr (fun nm hnm => by simp [hfalse nm hnm])]

theorem digitChar_ne_Z (n : ℕ) : ¬(digitChar n = 'Z') :=
  fun h => by have := h ▸ digitChar_mem n; simp at this

theorem digitChar_toLower (n : ℕ) : (digitChar n).toLower = digitChar n := by
  have h := digitChar_mem n
  generalize digitChar n = c at h ⊢
  fin_cases h <;> decide

theorem digitChar_CI_ne_not (k : ℕ) (c : Char) (hc : c ∈ ['-', '/', ':', ',', 't', 'T']) :
    ¬((digitChar k).toLower = c.toLower) := by
  have h := digitChar_mem k
  generalize digitChar k = b at h ⊢
  fin_cases hc <;> fin_cases h <;> decide

theorem replaceZ_shape (y m dd : ℕ) :
    replaceZ (pad4 y ++ '-' :: pad2 m ++ '-' :: pad2 dd) =
      pad4 y ++ '-' :: pad2 m ++ '-' :: pad2 dd := by
  simp [replaceZ, pad4, pad2, digitChar_ne_Z]

theorem strStrip_shape (y m dd : ℕ) :
    strStrip (String.mk (pad4 y ++ '-' :: pad2 m ++ '-' :: pad2 dd)) =
      String.mk (pad4 y ++ '-' :: pad2 m ++ '-' :: pad2 dd) := by
  simp [strStrip, dropWs, pad4, pad2, List.dropWhile, digitChar_not_space]

theorem fromisoformat_shape (y m dd : ℕ) :
    fromisoformat (pad4 y ++ '-' :: pad2 m ++ '-' :: pad2 dd) =
      if validYMDHMS (y % 10000) (m % 100) (dd % 100) 0 0 0 then
        some ⟨y % 10000, m % 100, dd % 100, 0, 0, 0⟩
      else none := by
  show fromisoformat [digitChar (y / 1000), digitChar (y / 100), digitChar (y / 10),
      digitChar y, '-', digitChar (m / 10), digitChar m, '-',
      digitChar (dd / 10), digitChar dd] = _
  unfold fromisoformat
  simp only [digitChar_isDigit, digVal_digitChar, Bool.and_self, Bool.and_true, Bool.true_and,
    if_true, reduceIte]
  have hy : 1000 * (y / 1000 % 10) + 100 * (y / 100 % 10) + 10 * (y / 10 % 10) + y % 10 =
      y % 10000 := by omega
  have hm : 10 * (m / 10 % 10) + m % 10 = m % 100 := by omega
  have hd : 10 * (dd / 10 % 10) + dd % 10 = dd % 100 := by omega
  rw [hy, hm, hd]
  simp

theorem daysInMonth_le_31 (y m : ℕ) : daysInMonth y m ≤ 31 := by
  unfold daysInMonth
  split_ifs <;> omega

theorem matchSeq_nil_eq (f : PFields) (cs : List Char) :
    matchSeq [] f cs = if cs.isEmpty then [f] else [] := rfl

theorem matchSeq_lit (c : Char) (ts : List FmtTok) (f : PFields) (x : Char) (cs : List Char) :
    matchSeq (.lit c :: ts) f (x :: cs) =
      if x.toLower = c.toLower then matchSeq ts f cs else [] := by
  simp only [matchSeq, tokCands]
  split_ifs <;> simp

theorem matchSeq_dY (ts : List FmtTok) (f : PFields) (c1 c2 c3 c4 : Char) (cs : List Char)
    (h1 : c1.isDigit = true) (h2 : c2.isDigit = true) (h3 : c3.isDigit = true)
    (h4 : c4.isDigit = true) :
    matchSeq (.dY :: ts) f (c1 :: c2 :: c3 :: c4 :: cs) =
      matchSeq ts { f with fY := 1000 * digVal c1 + 100 * digVal c2 + 10 * digVal c3 + digVal c4 } cs := by
  simp [matchSeq, tokCands, yearCands, h1, h2, h3, h4]

theorem matchSeq_dm (ts : List FmtTok) (f : PFields) (c1 c2 : Char) (cs : List Char)
    (h1 : c1.isDigit = true) (h2 : c2.isDigit = true) :
    matchSeq (.dm :: ts) f (c1 :: c2 :: cs) =
      (if 1 ≤ 10 * digVal c1 + digVal c2 ∧ 10 * digVal c1 + digVal c2 ≤ 12 then
        matchSeq ts { f with fM := 10 * digVal c1 + digVal c2 } cs else []) ++
      (if 1 ≤ digVal c1 then matchSeq ts { f with fM := digVal c1 } (c2 :: cs) else []) := by
  simp only [matchSeq, tokCands, numCands, h1, h2, Bool.true_and, Bool.and_true]
  split_ifs <;> simp_all

theorem matchSeq_dd (ts : List FmtTok) (f : PFields) (c1 c2 : Char) (cs : List Char)
    (h1 : c1.isDigit = true) (h2 : c2.isDigit = true) :
    matchSeq (.dd :: ts) f (c1 :: c2 :: cs) =
      (if 1 ≤ 10 * digVal c1 + digVal c2 ∧ 10 * digVal c1 + digVal c2 ≤ 31 then
        matchSeq ts { f with fD := 10 * digVal c1 + digVal c2 } cs else []) ++
      (if 1 ≤ digVal c1 then matchSeq ts { f with fD := digVal c1 } (c2 :: cs) else []) := by
  simp only [matchSeq, tokCands, numCands, h1, h2, Bool.true_and, Bool.and_true]
  split_ifs <;> simp_all

theorem matchSeq_ws_cons (ts : List FmtTok) (f : PFields) (x : Char) (cs : List Char)
    (h : isPySpace x = false) : matchSeq (.ws :: ts) f (x :: cs) = [] := by
  simp [matchSeq, tokCands, h]

theorem matchSeq_dB_digit (ts : List FmtTok) (f : PFields) (k : ℕ) (cs : List Char) :
    matchSeq (.dB :: ts) f (digitChar k :: cs) = [] := by
  simp [matchSeq, tokCands, monthCands_digit_names]

theorem matchSeq_db_digit (ts : List FmtTok) (f : PFields) (k : ℕ) (cs : List Char) :
    matchSeq (.db :: ts) f (digitChar k :: cs) = [] := by
  simp [matchSeq, tokCands, monthCands_digit_abbrs]


theorem strptime_iso_shape (y m dd : ℕ) :
    strptime [.dY, .lit '-', .dm, .lit '-', .dd]
        (String.mk (pad4 y ++ '-' :: pad2 m ++ '-' :: pad2 dd)) =
      if validYMDHMS (y % 10000) (m % 100) (dd % 100) 0 0 0 then
        some ⟨y % 10000, m % 100, dd % 100, 0, 0, 0⟩
      else none := by
  have hy : 1000 * (y / 1000 % 10) + 100 * (y / 100 % 10) + 10 * (y / 10 % 10) + y % 10 =
      y % 10000 := by omega
  have hm2 : 10 * (m / 10 % 10) + m % 10 = m % 100 := by omega
  have hd2 : 10 * (dd / 10 % 10) + dd % 10 = dd % 100 := by omega
  have h31 := daysInMonth_le_31 (y % 10000) (m % 100)
  have hdashne : ∀ k : ℕ, ¬((digitChar k).toLower = '-'.toLower) := fun k =>
    digitChar_CI_ne_not k '-' (by decide)
  have hdata : (String.mk (pad4 y ++ '-' :: pad2 m ++ '-' :: pad2 dd)).data =
      [digitChar (y / 1000), digitChar (y / 100), digitChar (y / 10), digitChar y, '-',
       digitChar (m / 10), digitChar m, '-', digitChar (dd / 10), digitChar dd] := rfl
  unfold strptime
  rw [hdata]
  rw [matchSeq_dY _ _ _ _ _ _ _ (digitChar_isDigit _) (digitChar_isDigit _)
    (digitChar_isDigit _) (digitChar_isDigit _)]
  simp only [matchSeq_lit, eq_self_iff_true, if_true]
  rw [matchSeq_dm _ _ _ _ _ (digitChar_isDigit _) (digitChar_isDigit _)]
  simp only [matchSeq_lit, hdashne, if_false, ite_self, List.append_nil, digVal_digitChar,
    eq_self_iff_true, if_true]
  rw [matchSeq_dd _ _ _ _ _ (digitChar_isDigit _) (digitChar_isDigit _)]
  simp only [matchSeq_nil_eq, List.isEmpty_cons, List.isEmpty_nil, if_true, if_false,
    Bool.false_eq_true, ite_self, List.append_nil, digVal_digitChar]
  rw [hy, hm2, hd2]
  by_cases hcm : 1 ≤ m % 100 ∧ m % 100 ≤ 12
  · rw [if_pos hcm]
    by_cases hcd : 1 ≤ dd % 100 ∧ dd % 100 ≤ 31
    · rw [if_pos hcd]
      rfl
    · rw [if_neg hcd]
      rw [if_neg ?hv1]
      case hv1 =>
        simp only [validYMDHMS, Bool.and_eq_true, decide_eq_true_eq]
        omega
  · rw [if_neg hcm]
    rw [if_neg ?hv2]
    case hv2 =>
      simp only [validYMDHMS, Bool.and_eq_true, decide_eq_true_eq]
      omega

theorem shape_data (y m dd : ℕ) :
    (String.mk (pad4 y ++ '-' :: pad2 m ++ '-' :: pad2 dd)).data =
      [digitChar (y / 1000), digitChar (y / 100), digitChar (y / 10), digitChar y, '-',
       digitChar (m / 10), digitChar m, '-', digitChar (dd / 10), digitChar dd] := rfl

theorem strptime_json_rest_none (y m dd : ℕ) (fmt : List FmtTok)
    (hf : fmt ∈ [[.dm, .lit '/', .dd, .lit '/', .dY],
                 [.dd, .lit '/', .dm, .lit '/', .dY],
                 [.dY, .lit '/', .dm, .lit '/', .dd],
                 [.dB, .ws, .dd, .lit ',', .ws, .dY],
                 [.db, .ws, .dd, .lit ',', .ws, .dY],
                 [.dd, .ws, .dB, .ws, .dY],
                 [.dd, .ws, .db, .ws, .dY]]) :
    strptime fmt (String.mk (pad4 y ++ '-' :: pad2 m ++ '-' :: pad2 dd)) = none := by
  have hslashne : ∀ k : ℕ, ¬((digitChar k).toLower = '/'.toLower) := fun k =>
    digitChar_CI_ne_not k '/' (by decide)
  have hdashslash : ¬(('-' : Char).toLower = '/'.toLower) := by decide
  have hws : ∀ (ts : List FmtTok) (f : PFields) (k : ℕ) (cs : List Char),
      matchSeq (.ws :: ts) f (digitChar k :: cs) = [] := fun ts f k cs =>
    matchSeq_ws_cons ts f (digitChar k) cs (digitChar_not_space k)
  fin_cases hf
  · unfold strptime
    rw [shape_data]
    rw [matchSeq_dm _ _ _ _ _ (digitChar_isDigit _) (digitChar_isDigit _)]
    simp only [matchSeq_lit, hslashne, if_false, ite_self, List.append_nil]
  · unfold strptime
    rw [shape_data]
    rw [matchSeq_dd _ _ _ _ _ (digitChar_isDigit _) (digitChar_isDigit _)]
    simp only [matchSeq_lit, hslashne, if_false, ite_self, List.append_nil]
  · unfold strptime
    rw [shape_data]
    rw [matchSeq_dY _ _ _ _ _ _ _ (digitChar_isDigit _) (digitChar_isDigit _)
      (digitChar_isDigit _) (digitChar_isDigit _)]
    rw [matchSeq_lit, if_neg hdashslash]
  · unfold strptime
    rw [shape_data, matchSeq_dB_digit]
  · unfold strptime
    rw [shape_data, matchSeq_db_digit]
  · unfold strptime
    rw [shape_data]
    rw [matchSeq_dd _ _ _ _ _ (digitChar_isDigit _) (digitChar_isDigit _)]
    simp only [hws, ite_self, List.append_nil]
  · unfold strptime
    rw [shape_data]
    rw [matchSeq_dd _ _ _ _ _ (digitChar_isDigit _) (digitChar_isDigit _)]
    simp only [hws, ite_self, List.append_nil]

theorem pad4_mod (y : ℕ) : pad4 (y % 10000) = pad4 y := by
  unfold pad4
  rw [digitChar_congr (y % 10000 / 1000) (y / 1000) (by omega),
      digitChar_congr (y % 10000 / 100) (y / 100) (by omega),
      digitChar_congr (y % 10000 / 10) (y / 10) (by omega),
      digitChar_congr (y % 10000) y (by omega)]

theorem pad2_mod (m : ℕ) : pad2 (m % 100) = pad2 m := by
  unfold pad2
  rw [digitChar_congr (m % 100 / 10) (m / 10) (by omega),
      digitChar_congr (m % 100) m (by omega)]

theorem strftime_stable (d0 : PyDateTime) :
    format_date_iso8601 (.vstr (strftimeYMD d0)) = some (strftimeYMD d0) := by
  obtain ⟨y, m, dd, hh, mi, ss⟩ := d0
  show format_date_iso8601
      (.vstr (String.mk (pad4 y ++ '-' :: pad2 m ++ '-' :: pad2 dd))) = _
  have hne : String.mk (pad4 y ++ '-' :: pad2 m ++ '-' :: pad2 dd) ≠ "" := by
    intro h
    have h2 := congrArg String.data h
    simp [pad4, pad2] at h2
  unfold format_date_iso8601
  dsimp only
  rw [if_neg hne]
  rw [replaceZ_shape, fromisoformat_shape]
  by_cases hval : validYMDHMS (y % 10000) (m % 100) (dd % 100) 0 0 0 = true
  · rw [if_pos hval]
    show some (strftimeYMD ⟨y % 10000, m % 100, dd % 100, 0, 0, 0⟩) = _
    unfold strftimeYMD
    rw [pad4_mod, pad2_mod, pad2_mod]
  · rw [if_neg hval]
    have hnone : ∀ fmt ∈ JSON_DATE_FORMATS,
        strptime fmt (strStrip (String.mk (pad4 y ++ '-' :: pad2 m ++ '-' :: pad2 dd))) =
          none := by
      intro fmt hf
      rw [strStrip_shape]
      fin_cases hf
      · rw [strptime_iso_shape, if_neg hval]
      · exact strptime_json_rest_none y m dd _ (by decide)
      · exact strptime_json_rest_none y m dd _ (by decide)
      · exact strptime_json_rest_none y m dd _ (by decide)
      · exact strptime_json_rest_none y m dd _ (by decide)
      · exact strptime_json_rest_none y m dd _ (by decide)
      · exact strptime_json_rest_none y m dd _ (by decide)
      · exact strptime_json_rest_none y m dd _ (by decide)
    rw [List.findSome?_eq_none_iff.mpr hnone]
    rfl

theorem format_date_stable (v : Val) (s : String) (h : format_date_iso8601 v = some s) :
    format_date_iso8601 (.vstr s) = some s := by
  cases v with
  | vnull => simp [format_date_iso8601] at h
  | vdt d =>
      have hs : strftimeYMD d = s := by
        simpa [format_date_iso8601] using h
      exact hs ▸ strftime_stable d
  | vstr s0 =>
      unfold format_date_iso8601 at h
      dsimp only at h
      by_cases he : s0 = ""
      · rw [if_pos he] at h
        exact absurd h (by simp)
      · rw [if_neg he] at h
        cases hiso : fromisoformat (replaceZ s0.data) with
        | some d =>
            rw [hiso] at h
            dsimp only at h
            injection h with h2
            exact h2 ▸ strftime_stable d
        | none =>
            rw [hiso] at h
            dsimp only at h
            cases hfind : List.findSome? (fun fmt => strptime fmt (strStrip s0))
                JSON_DATE_FORMATS with
            | some d =>
                rw [hfind] at h
                dsimp only at h
                injection h with h2
                exact h2 ▸ strftime_stable d
            | none =>
                rw [hfind] at h
                dsimp only at h
                injection h with h2
                subst h2
                unfold format_date_iso8601
                dsimp only
                rw [if_neg he, hiso, hfind]

theorem validate_formatTask (t : JTask) : validate_task_structure (formatTask t) = true := rfl

theorem formatTask_idem (t : JTask) : formatTask (formatTask t) = formatTask t := by
  unfold formatTask
  simp only [Option.getD_some]
  cases hfd : format_date_iso8601 (t.deadline.getD .vnull) with
  | none => simp [format_date_iso8601]
  | some s => simp [format_date_stable _ _ hfd]

theorem build_json_structure_eq (ts : List JTask) :
    build_json_structure ts = (ts.filter validate_task_structure).map formatTask := by
  induction ts with
  | nil => rfl
  | cons t rest ih =>
      unfold build_json_structure
      by_cases hv : validate_task_structure t <;> simp [hv, List.filter_cons, ih]

theorem build_json_diagnostics_eq (ts : List JTask) :
    build_json_diagnostics ts = ts.filter (fun t => !validate_task_structure t) := by
  induction ts with
  | nil => rfl
  | cons t rest ih =>
      unfold build_json_diagnostics
      by_cases hv : validate_task_structure t <;> simp [hv, List.filter_cons, ih]

/-- C9: normalization is idempotent — re-running the validator/normalizer on
any record it emitted yields that record unchanged (an already canonical
`YYYY-MM-DD` deadline, a null deadline, and the raw-text fallback value all
re-canonicalize to themselves). -/
theorem normalize_idempotent :
    ∀ (ts : List JTask) (r : JTask), r ∈ build_json_structure ts →
      build_json_structure [r] = [r] := by
  intro ts r hr
  rw [build_json_structure_eq] at hr
  obtain ⟨t, ht, rfl⟩ := List.mem_map.mp hr
  show build_json_structure [formatTask t] = [formatTask t]
  unfold build_json_structure
  rw [if_pos (validate_formatTask t), formatTask_idem]
  rfl

/-- C9 witness: the formatted complete record re-normalizes unchanged. -/
theorem normalize_idempotent_witness :
    build_json_structure [formatTask goodTask] = [formatTask goodTask] :=
  normalize_idempotent [goodTask] (formatTask goodTask) (by decide)


end EmailScheduler
